import Mathlib

/-!
Shallow embedding of the filter-aggregate-render pipeline of
`src/dashboard.py` (a Dash customer-experience dashboard).

The in-memory table `df` is modelled as a `List CustomerRecord`; the
pandas boolean-mask filter in `update_graphs` (lines 162-166), the
`groupby('Location').agg(mean, mean)` (lines 193-196) and the `melt`
into long form (lines 197-202) are modelled as pure functions on lists.
Column values: `Age` as `Int`, scores and times as `ℚ`, categorical
columns as `String`.
-/

/-- One row of `customer_experience_data.csv`, with the columns the
dashboard reads (field names follow the CSV header used in the code). -/
structure CustomerRecord where
  Age : Int
  Location : String
  Satisfaction_Score : ℚ
  Feedback_Score : ℚ
  Time_Spent_on_Site : ℚ
  Products_Purchased : Int
  Products_Viewed : Int
  Retention_Status : String
deriving DecidableEq, Repr

/-- The boolean-mask filter of `update_graphs`:
`df[(df['Age'] >= age_range[0]) & (df['Age'] <= age_range[1]) & (df['Location'].isin(locations))]`.
Pandas boolean indexing keeps the matching rows in source order. -/
def filtered_df (df : List CustomerRecord) (age_range : Int × Int)
    (locations : List String) : List CustomerRecord :=
  df.filter (fun r =>
    decide (age_range.1 ≤ r.Age ∧ r.Age ≤ age_range.2 ∧ r.Location ∈ locations))

/-- The rows of `df` whose `Location` equals `l` (one group of
`df.groupby('Location')`). -/
def locationGroup (df : List CustomerRecord) (l : String) : List CustomerRecord :=
  df.filter (fun r => r.Location == l)

/-- Arithmetic mean of a list of rationals (pandas `'mean'` aggregation;
only ever applied to non-empty groups, as groupby emits no empty group). -/
def listMean (xs : List ℚ) : ℚ :=
  xs.sum / (xs.length : ℚ)

/-- One row of the grouped frame produced by
`filtered_df.groupby('Location', as_index=False).agg(...)`. -/
structure GroupedRow where
  Location : String
  Avg_Satisfaction_Score : ℚ
  Avg_Feedback_Score : ℚ
deriving DecidableEq, Repr

/-- `filtered_df.groupby('Location', as_index=False).agg(
Avg_Satisfaction_Score=('Satisfaction_Score','mean'),
Avg_Feedback_Score=('Feedback_Score','mean'))`: one row per distinct
`Location` value present in `df`, holding the mean of each score over
that location's rows. (Pandas orders groups by sorted key; the
embedding uses the deduplicated key list, as no claim depends on the
order of the grouped rows.) -/
def grouped_location_df (df : List CustomerRecord) : List GroupedRow :=
  ((df.map (fun r => r.Location)).dedup).map (fun l =>
    { Location := l
      Avg_Satisfaction_Score := listMean ((locationGroup df l).map (fun r => r.Satisfaction_Score))
      Avg_Feedback_Score := listMean ((locationGroup df l).map (fun r => r.Feedback_Score)) })

/-- One row of the long/tidy frame produced by `melt`. -/
structure MeltedRow where
  Location : String
  Metric : String
  Average_Score : ℚ
deriving DecidableEq, Repr

/-- `grouped_location_df.melt(id_vars='Location',
value_vars=['Avg_Satisfaction_Score','Avg_Feedback_Score'],
var_name='Metric', value_name='Average_Score')`: pandas stacks the
value columns, emitting all `Avg_Satisfaction_Score` rows first, then
all `Avg_Feedback_Score` rows. -/
def melted_location_df (g : List GroupedRow) : List MeltedRow :=
  g.map (fun r =>
    { Location := r.Location, Metric := "Avg_Satisfaction_Score",
      Average_Score := r.Avg_Satisfaction_Score })
  ++ g.map (fun r =>
    { Location := r.Location, Metric := "Avg_Feedback_Score",
      Average_Score := r.Avg_Feedback_Score })

/-- The data bound into the four figures returned by `update_graphs`:
the pie, 3D scatter and animated scatter consume the filtered subset
directly; the grouped bar consumes the melted aggregate. Styling and
axis bindings are rendering configuration, not data transformation. -/
structure Figures where
  satisfaction_dist : List CustomerRecord
  age_satisfaction : List CustomerRecord
  location_analysis : List MeltedRow
  products_analysis : List CustomerRecord
deriving DecidableEq, Repr

/-- The callback `update_graphs(age_range, locations)` of
`src/dashboard.py`, with the module-level table `df` passed explicitly
as state: it reads `df`, computes the filtered subset and the
grouped/melted aggregate, and returns the four figures. The callback
never assigns to `df` nor uses any in-place pandas operation, so the
table state it leaves behind is the table it was given. -/
def update_graphs (df : List CustomerRecord) (age_range : Int × Int)
    (locations : List String) : List CustomerRecord × Figures :=
  let f := filtered_df df age_range locations
  (df,
   { satisfaction_dist := f
     age_satisfaction := f
     location_analysis := melted_location_df (grouped_location_df f)
     products_analysis := f })

/-- Minimum of the `Age` column (`df['Age'].min()`); 0 on an empty table. -/
def minAge (df : List CustomerRecord) : Int :=
  match df.map (fun r => r.Age) with
  | [] => 0
  | a :: as => as.foldl min a

/-- Maximum of the `Age` column (`df['Age'].max()`); 0 on an empty table. -/
def maxAge (df : List CustomerRecord) : Int :=
  match df.map (fun r => r.Age) with
  | [] => 0
  | a :: as => as.foldl max a

/-- The distinct `Location` values of the table (`df['Location'].unique()`). -/
def tableLocations (df : List CustomerRecord) : List String :=
  (df.map (fun r => r.Location)).dedup

/- Sample records used by the witnesses, mirroring the example rows of
the specification. -/

def rNY : CustomerRecord :=
  { Age := 25, Location := "NY", Satisfaction_Score := 4, Feedback_Score := 3,
    Time_Spent_on_Site := 10, Products_Purchased := 2, Products_Viewed := 5,
    Retention_Status := "Retained" }

def rNY2 : CustomerRecord :=
  { Age := 40, Location := "NY", Satisfaction_Score := 2, Feedback_Score := 1,
    Time_Spent_on_Site := 8, Products_Purchased := 0, Products_Viewed := 2,
    Retention_Status := "Retained" }

def rLA : CustomerRecord :=
  { Age := 30, Location := "LA", Satisfaction_Score := 5, Feedback_Score := 4,
    Time_Spent_on_Site := 12, Products_Purchased := 1, Products_Viewed := 3,
    Retention_Status := "Churned" }

/-- Membership characterisation of the filter. -/
theorem mem_filtered_df (df : List CustomerRecord) (age_range : Int × Int)
    (locations : List String) (r : CustomerRecord) :
    r ∈ filtered_df df age_range locations ↔
      r ∈ df ∧ age_range.1 ≤ r.Age ∧ r.Age ≤ age_range.2 ∧
        r.Location ∈ locations := by
  simp [filtered_df, List.mem_filter]

/-- C1: for every table and valid input with `age_min ≤ age_max`, a
record is in the filter's result iff it is a record of the table whose
age lies in `[age_min, age_max]` and whose location is in `locations`
(soundness and completeness of the filter stage). -/
theorem filtered_df_sound_complete (df : List CustomerRecord)
    (age_min age_max : Int) (locations : List String)
    (h : age_min ≤ age_max) (r : CustomerRecord) :
    r ∈ filtered_df df (age_min, age_max) locations ↔
      r ∈ df ∧ age_min ≤ r.Age ∧ r.Age ≤ age_max ∧ r.Location ∈ locations := by
  exact mem_filtered_df df (age_min, age_max) locations r

/-- Witness for C1 at the specification's example: age range 20-35,
locations {NY, LA}, on the three sample rows. -/
theorem filtered_df_sound_complete_witness :
    rNY ∈ filtered_df [rNY, rNY2, rLA] (20, 35) ["NY", "LA"] ↔
      rNY ∈ [rNY, rNY2, rLA] ∧ 20 ≤ rNY.Age ∧ rNY.Age ≤ 35 ∧
        rNY.Location ∈ ["NY", "LA"] :=
  filtered_df_sound_complete [rNY, rNY2, rLA] 20 35 ["NY", "LA"] (by decide) rNY

/-- C2: the filter's result is a sublist (order-preserving subsequence)
of the source table: pandas boolean-mask indexing keeps matching rows
in source order and builds a fresh frame. -/
theorem filtered_df_sublist (df : List CustomerRecord)
    (age_range : Int × Int) (locations : List String) :
    (filtered_df df age_range locations).Sublist df :=
  List.filter_sublist df

/-- C7: a degenerate range `age_min = age_max = a` keeps exactly the
records whose age equals `a` and whose location is selected (both age
bounds are inclusive). -/
theorem filtered_df_degenerate_range (df : List CustomerRecord)
    (a : Int) (locations : List String) (r : CustomerRecord) :
    r ∈ filtered_df df (a, a) locations ↔
      r ∈ df ∧ r.Age = a ∧ r.Location ∈ locations := by
  rw [mem_filtered_df]
  constructor
  · rintro ⟨hm, h1, h2, h3⟩
    exact ⟨hm, le_antisymm h2 h1, h3⟩
  · rintro ⟨hm, h1, h3⟩
    exact ⟨hm, le_of_eq h1.symm, le_of_eq h1, h3⟩

/-- Folding `min` over a list never exceeds the initial accumulator. -/
theorem foldl_min_le_init (as : List Int) (a : Int) : List.foldl min a as ≤ a := by
  induction as generalizing a with
  | nil => exact le_refl a
  | cons b bs ih => exact le_trans (ih (min a b)) (min_le_left a b)

/-- Folding `min` over a list never exceeds any list element. -/
theorem foldl_min_le_mem (as : List Int) (a x : Int) (hx : x ∈ as) :
    List.foldl min a as ≤ x := by
  induction as generalizing a with
  | nil => cases hx
  | cons b bs ih =>
    rcases List.mem_cons.mp hx with h | h
    · subst h
      exact le_trans (foldl_min_le_init bs (min a x)) (min_le_right a x)
    · exact ih (min a b) h

/-- Folding `max` over a list is at least the initial accumulator. -/
theorem le_foldl_max_init (as : List Int) (a : Int) : a ≤ List.foldl max a as := by
  induction as generalizing a with
  | nil => exact le_refl a
  | cons b bs ih => exact le_trans (le_max_left a b) (ih (max a b))

/-- Folding `max` over a list is at least any list element. -/
theorem le_foldl_max_mem (as : List Int) (a x : Int) (hx : x ∈ as) :
    x ≤ List.foldl max a as := by
  induction as generalizing a with
  | nil => cases hx
  | cons b bs ih =>
    rcases List.mem_cons.mp hx with h | h
    · subst h
      exact le_trans (le_max_right a x) (le_foldl_max_init bs (max a x))
    · exact ih (max a b) h

/-- `df['Age'].min()` is a lower bound on every record's age. -/
theorem minAge_le (df : List CustomerRecord) (r : CustomerRecord) (hr : r ∈ df) :
    minAge df ≤ r.Age := by
  cases df with
  | nil => cases hr
  | cons d ds =>
    have hm : r.Age ∈ (ds.map (fun r => r.Age)) ∨ r.Age = d.Age := by
      rcases List.mem_cons.mp hr with h | h
      · exact Or.inr (by rw [h])
      · exact Or.inl (List.mem_map_of_mem _ h)
    show List.foldl min d.Age (ds.map (fun r => r.Age)) ≤ r.Age
    rcases hm with h | h
    · exact foldl_min_le_mem _ _ _ h
    · rw [h]; exact foldl_min_le_init _ _

/-- `df['Age'].max()` is an upper bound on every record's age. -/
theorem le_maxAge (df : List CustomerRecord) (r : CustomerRecord) (hr : r ∈ df) :
    r.Age ≤ maxAge df := by
  cases df with
  | nil => cases hr
  | cons d ds =>
    have hm : r.Age ∈ (ds.map (fun r => r.Age)) ∨ r.Age = d.Age := by
      rcases List.mem_cons.mp hr with h | h
      · exact Or.inr (by rw [h])
      · exact Or.inl (List.mem_map_of_mem _ h)
    show r.Age ≤ List.foldl max d.Age (ds.map (fun r => r.Age))
    rcases hm with h | h
    · exact le_foldl_max_mem _ _ _ h
    · rw [h]; exact le_foldl_max_init _ _

/-- C3: filtering with the dataset's own age bounds and its full set of
distinct locations returns the whole table unchanged in content and
order (the full-range filter is the identity). -/
theorem filtered_df_full_range_id (df : List CustomerRecord) :
    filtered_df df (minAge df, maxAge df) (tableLocations df) = df := by
  rw [filtered_df, List.filter_eq_self]
  intro r hr
  simp only [decide_eq_true_eq]
  exact ⟨minAge_le df r hr, le_maxAge df r hr,
    List.mem_dedup.mpr (List.mem_map_of_mem _ hr)⟩

/-- C6: an empty `locations` selection yields an empty filtered subset
(not an error), the aggregation of that empty subset is the empty list,
and so is the melted frame: the pipeline completes on empty input. -/
theorem empty_locations_empty_pipeline (df : List CustomerRecord)
    (age_range : Int × Int) :
    filtered_df df age_range [] = [] ∧
    grouped_location_df (filtered_df df age_range []) = [] ∧
    melted_location_df (grouped_location_df (filtered_df df age_range [])) = [] := by
  have h1 : filtered_df df age_range [] = [] := by
    rw [filtered_df, List.filter_eq_nil_iff]
    intro r _
    simp
  refine ⟨h1, ?_, ?_⟩ <;> rw [h1] <;> rfl

/-- C8: `update_graphs` leaves the source table unchanged: the table
state after the callback equals the table it read, and every derived
view (filtered subset, grouped aggregate, melted frame) is a freshly
computed value of the output, not a mutation of the input. -/
theorem update_graphs_preserves_table (df : List CustomerRecord)
    (age_range : Int × Int) (locations : List String) :
    (update_graphs df age_range locations).1 = df := rfl

/-- C9: the pipeline is deterministic: rerunning `update_graphs` on the
table state left by a first run, with the same inputs, produces the
same four figures — the output depends only on the inputs and the
table, with no hidden state. -/
theorem update_graphs_deterministic (df : List CustomerRecord)
    (age_range : Int × Int) (locations : List String) :
    (update_graphs (update_graphs df age_range locations).1
        age_range locations).2 =
      (update_graphs df age_range locations).2 := rfl

/-- C10: the filter is monotone in its controls: widening the age range
and enlarging the location selection never drops a record that the
narrower filter kept. -/
theorem filtered_df_monotone (df : List CustomerRecord)
    (a1 b1 a2 b2 : Int) (l1 l2 : List String)
    (ha : a2 ≤ a1) (hb : b1 ≤ b2) (hl : l1 ⊆ l2) (r : CustomerRecord)
    (hr : r ∈ filtered_df df (a1, b1) l1) :
    r ∈ filtered_df df (a2, b2) l2 := by
  rw [mem_filtered_df] at hr ⊢
  obtain ⟨hm, h1, h2, h3⟩ := hr
  exact ⟨hm, le_trans ha h1, le_trans h2 hb, hl h3⟩

/-- Witness for C10: widening the range 25-30 to 20-35 and the
selection {NY} to {NY, LA} keeps the sample record. -/
theorem filtered_df_monotone_witness :
    rNY ∈ filtered_df [rNY, rNY2, rLA] (20, 35) ["NY", "LA"] :=
  filtered_df_monotone [rNY, rNY2, rLA] 25 30 20 35 ["NY"] ["NY", "LA"]
    (by decide) (by decide) (by decide) rNY (by decide)

/-- A location occurring in the table has a non-empty group. -/
theorem locationGroup_ne_nil (df : List CustomerRecord) (l : String)
    (h : l ∈ df.map (fun r => r.Location)) : locationGroup df l ≠ [] := by
  rcases List.mem_map.mp h with ⟨r, hr, hl⟩
  intro hnil
  have hmem : r ∈ locationGroup df l := by
    rw [locationGroup, List.mem_filter]
    exact ⟨hr, by simp [hl]⟩
  rw [hnil] at hmem
  cases hmem

/-- The grouped frame's key column is the deduplicated location column. -/
theorem grouped_location_df_keys (s : List CustomerRecord) :
    (grouped_location_df s).map (fun g => g.Location) =
      (s.map (fun r => r.Location)).dedup := by
  rw [grouped_location_df, List.map_map]
  exact List.map_id _

/-- C4: on a non-empty subset, the aggregation emits exactly one entry
per distinct location present (duplicate-free keys, keys = locations of
the subset, so zero-row locations are absent rather than emitted with
NaN or zero), and each entry's value times its group size equals the
group's score sum, i.e. each value is the arithmetic mean over that
location's rows of the subset. -/
theorem grouped_location_df_correct (s : List CustomerRecord) (hs : s ≠ []) :
    ((grouped_location_df s).map (fun g => g.Location)).Nodup ∧
    (∀ l, l ∈ (grouped_location_df s).map (fun g => g.Location) ↔
      ∃ r ∈ s, r.Location = l) ∧
    (∀ g ∈ grouped_location_df s,
      locationGroup s g.Location ≠ [] ∧
      g.Avg_Satisfaction_Score * ((locationGroup s g.Location).length : ℚ) =
        ((locationGroup s g.Location).map (fun r => r.Satisfaction_Score)).sum ∧
      g.Avg_Feedback_Score * ((locationGroup s g.Location).length : ℚ) =
        ((locationGroup s g.Location).map (fun r => r.Feedback_Score)).sum) := by
  refine ⟨?_, ?_, ?_⟩
  · rw [grouped_location_df_keys]
    exact List.nodup_dedup _
  · intro l
    rw [grouped_location_df_keys, List.mem_dedup, List.mem_map]
  · intro g hg
    rw [grouped_location_df] at hg
    rcases List.mem_map.mp hg with ⟨l, hl, hEq⟩
    subst hEq
    have hne : locationGroup s l ≠ [] :=
      locationGroup_ne_nil s l (List.mem_dedup.mp hl)
    have hlen : ((locationGroup s l).length : ℚ) ≠ 0 := by
      rw [Nat.cast_ne_zero, Ne, List.length_eq_zero]
      exact hne
    refine ⟨hne, ?_, ?_⟩
    · show listMean ((locationGroup s l).map (fun r => r.Satisfaction_Score)) *
        ((locationGroup s l).length : ℚ) =
        ((locationGroup s l).map (fun r => r.Satisfaction_Score)).sum
      rw [listMean, List.length_map]
      exact div_mul_cancel₀ _ hlen
    · show listMean ((locationGroup s l).map (fun r => r.Feedback_Score)) *
        ((locationGroup s l).length : ℚ) =
        ((locationGroup s l).map (fun r => r.Feedback_Score)).sum
      rw [listMean, List.length_map]
      exact div_mul_cancel₀ _ hlen

/-- Witness for C4 on the three sample rows (locations NY and LA). -/
theorem grouped_location_df_correct_witness :
    (((grouped_location_df [rNY, rNY2, rLA]).map (fun g => g.Location)).Nodup ∧
    (∀ l, l ∈ (grouped_location_df [rNY, rNY2, rLA]).map (fun g => g.Location) ↔
      ∃ r ∈ [rNY, rNY2, rLA], r.Location = l) ∧
    (∀ g ∈ grouped_location_df [rNY, rNY2, rLA],
      locationGroup [rNY, rNY2, rLA] g.Location ≠ [] ∧
      g.Avg_Satisfaction_Score *
          ((locationGroup [rNY, rNY2, rLA] g.Location).length : ℚ) =
        ((locationGroup [rNY, rNY2, rLA] g.Location).map
          (fun r => r.Satisfaction_Score)).sum ∧
      g.Avg_Feedback_Score *
          ((locationGroup [rNY, rNY2, rLA] g.Location).length : ℚ) =
        ((locationGroup [rNY, rNY2, rLA] g.Location).map
          (fun r => r.Feedback_Score)).sum)) :=
  grouped_location_df_correct [rNY, rNY2, rLA] (by decide)

/-- Filtering a mapped list on a key value absent from the key list
yields the empty list. -/
theorem filter_map_key_not_mem {β : Type} (F : String → β) (key : β → String)
    (hF : ∀ x, key (F x) = x) (D : List String) (l : String) (hl : l ∉ D) :
    (D.map F).filter (fun b => key b == l) = [] := by
  rw [List.filter_eq_nil_iff]
  intro b hb
  rcases List.mem_map.mp hb with ⟨x, hx, hEq⟩
  subst hEq
  simp only [hF, beq_iff_eq]
  intro h
  exact hl (h ▸ hx)

/-- Filtering a mapped list on a key value of a duplicate-free key list
keeps exactly the image of that key. -/
theorem filter_map_key_nodup {β : Type} (F : String → β) (key : β → String)
    (hF : ∀ x, key (F x) = x) (D : List String) (l : String)
    (hn : D.Nodup) (hm : l ∈ D) :
    (D.map F).filter (fun b => key b == l) = [F l] := by
  induction D with
  | nil => cases hm
  | cons x xs ih =>
    rw [List.nodup_cons] at hn
    by_cases hxl : x = l
    · subst hxl
      rw [List.map_cons, List.filter_cons_of_pos (by simp [hF])]
      rw [filter_map_key_not_mem F key hF xs x hn.1]
    · rw [List.map_cons, List.filter_cons_of_neg (by simp [hF, hxl])]
      exact ih hn.2 (List.mem_of_ne_of_mem (fun h => hxl h.symm) hm)

/-- C5: for every location present in the subset, the melted long-form
frame holds exactly two records with that location — one tagged
`Avg_Satisfaction_Score` carrying the location's satisfaction mean,
one tagged `Avg_Feedback_Score` carrying its feedback mean — and every
melted record's location is a location present in the subset (no other
records). -/
theorem melted_location_df_shape (s : List CustomerRecord) (l : String)
    (hl : l ∈ tableLocations s) :
    (melted_location_df (grouped_location_df s)).filter
        (fun m => m.Location == l) =
      [{ Location := l, Metric := "Avg_Satisfaction_Score",
         Average_Score :=
           listMean ((locationGroup s l).map (fun r => r.Satisfaction_Score)) },
       { Location := l, Metric := "Avg_Feedback_Score",
         Average_Score :=
           listMean ((locationGroup s l).map (fun r => r.Feedback_Score)) }] ∧
    ∀ m ∈ melted_location_df (grouped_location_df s),
      m.Location ∈ tableLocations s := by
  constructor
  · have hl2 : l ∈ (s.map (fun r => r.Location)).dedup := hl
    rw [melted_location_df, grouped_location_df, List.filter_append,
      List.map_map, List.map_map]
    show ((s.map (fun r => r.Location)).dedup.map (fun x =>
        ({ Location := x, Metric := "Avg_Satisfaction_Score",
           Average_Score :=
             listMean ((locationGroup s x).map (fun r => r.Satisfaction_Score)) }
          : MeltedRow))).filter (fun m => m.Location == l) ++
      ((s.map (fun r => r.Location)).dedup.map (fun x =>
        ({ Location := x, Metric := "Avg_Feedback_Score",
           Average_Score :=
             listMean ((locationGroup s x).map (fun r => r.Feedback_Score)) }
          : MeltedRow))).filter (fun m => m.Location == l) = _
    rw [filter_map_key_nodup (fun x =>
        ({ Location := x, Metric := "Avg_Satisfaction_Score",
           Average_Score :=
             listMean ((locationGroup s x).map (fun r => r.Satisfaction_Score)) }
          : MeltedRow))
      (fun m => m.Location) (fun x => rfl)
      ((s.map (fun r => r.Location)).dedup) l (List.nodup_dedup _) hl2]
    rw [filter_map_key_nodup (fun x =>
        ({ Location := x, Metric := "Avg_Feedback_Score",
           Average_Score :=
             listMean ((locationGroup s x).map (fun r => r.Feedback_Score)) }
          : MeltedRow))
      (fun m => m.Location) (fun x => rfl)
      ((s.map (fun r => r.Location)).dedup) l (List.nodup_dedup _) hl2]
    rfl
  · intro m hm
    rw [melted_location_df] at hm
    rcases List.mem_append.mp hm with h | h
    · rcases List.mem_map.mp h with ⟨g, hg, hEq⟩
      subst hEq
      rw [grouped_location_df] at hg
      rcases List.mem_map.mp hg with ⟨x, hx, hEq2⟩
      subst hEq2
      exact hx
    · rcases List.mem_map.mp h with ⟨g, hg, hEq⟩
      subst hEq
      rw [grouped_location_df] at hg
      rcases List.mem_map.mp hg with ⟨x, hx, hEq2⟩
      subst hEq2
      exact hx

/-- Witness for C5: location NY on the three sample rows. -/
theorem melted_location_df_shape_witness :
    (melted_location_df (grouped_location_df [rNY, rNY2, rLA])).filter
        (fun m => m.Location == "NY") =
      [{ Location := "NY", Metric := "Avg_Satisfaction_Score",
         Average_Score :=
           listMean ((locationGroup [rNY, rNY2, rLA] "NY").map
             (fun r => r.Satisfaction_Score)) },
       { Location := "NY", Metric := "Avg_Feedback_Score",
         Average_Score :=
           listMean ((locationGroup [rNY, rNY2, rLA] "NY").map
             (fun r => r.Feedback_Score)) }] ∧
    ∀ m ∈ melted_location_df (grouped_location_df [rNY, rNY2, rLA]),
      m.Location ∈ tableLocations [rNY, rNY2, rLA] :=
  melted_location_df_shape [rNY, rNY2, rLA] "NY" (by decide)
